import Mathlib

/-!
Verification of the png-to-pdf converter core: the layout calculator
(`calculateImageDimensions`), the conversion pipeline run by `handleConvert`,
and the session state machine of the main component.  All physical dimensions
are modelled over ℚ (the source works with JS numbers; the claims under
scrutiny are exact algebraic identities over the arithmetic the code writes).
-/

/-- Placement rectangle returned by the layout calculator, fields in the order
the source builds them: width, height, x, y (all in millimeters). -/
structure Rect where
  width : ℚ
  height : ℚ
  x : ℚ
  y : ℚ
deriving DecidableEq, Repr

/-- The `imageFit` field of `ConversionOptions`. -/
inductive ImageFit
  | fit
  | original
  | fill
deriving DecidableEq, Repr

/-- The fixed 10 mm margin of `calculateImageDimensions`. -/
def margin : ℚ := 10

/-- The `pixelToMm` constant of the `original` branch (0.352778, 72 DPI). -/
def pixelToMm : ℚ := 0.352778

/-- Direct embedding of `calculateImageDimensions` from the source. -/
def calculateImageDimensions (imgWidth imgHeight pageWidth pageHeight : ℚ)
    (imageFit : ImageFit) : Rect :=
  let availableWidth := pageWidth - margin * 2
  let availableHeight := pageHeight - margin * 2
  match imageFit with
  | .fit =>
      let scaleX := availableWidth / imgWidth
      let scaleY := availableHeight / imgHeight
      let scale := min scaleX scaleY
      let width := imgWidth * scale
      let height := imgHeight * scale
      ⟨width, height, (pageWidth - width) / 2, (pageHeight - height) / 2⟩
  | .fill =>
      ⟨availableWidth, availableHeight, margin, margin⟩
  | .original =>
      let width := min (imgWidth * pixelToMm) availableWidth
      let height := min (imgHeight * pixelToMm) availableHeight
      ⟨width, height, (pageWidth - width) / 2, (pageHeight - height) / 2⟩

/-! ## Conversion pipeline and session state (embedding of the main component)

`SelectedFile` models one file in the selection together with the outcomes of
the external asynchronous services the pipeline consults for it:
`readOk` is the outcome of `fileToBase64`, `webpLoadOk` the outcome of
`loadImage` on the original WebP data, `ctxOk` whether
`canvas.getContext` returns a context, and `finalLoad` the outcome (decoded
pixel dimensions) of the final `loadImage` on the data handed to `addImage`. -/

structure SelectedFile where
  ftype : String
  readOk : Bool
  webpLoadOk : Bool
  ctxOk : Bool
  finalLoad : Option (ℚ × ℚ)
deriving DecidableEq, Repr

/-- The MIME types accepted by the pre-filter in the main component. -/
def supportedTypes : List String := ["image/png", "image/jpeg", "image/webp"]

/-- The `filteredFiles` memo: keep only supported MIME types. -/
def filteredFiles (files : List SelectedFile) : List SelectedFile :=
  files.filter (fun f => supportedTypes.contains f.ftype)

/-- Provenance of the encoded data handed to `pdf.addImage`: either the
base64 data URL of the file itself, or the PNG re-encoding produced by the
WebP canvas normalization. -/
inductive ImageData
  | base64 (f : SelectedFile)
  | canvasPng (f : SelectedFile)
deriving DecidableEq, Repr

/-- One `pdf.addImage` call: data, format tag, and placement rectangle. -/
structure PlacedImage where
  data : ImageData
  format : String
  rect : Rect
deriving DecidableEq, Repr

/-- Tail of the per-image processing: the final `loadImage` on the (possibly
re-encoded) data; on success the layout is computed and the placement built. -/
def finishImage (imageFit : ImageFit) (pageWidth pageHeight : ℚ)
    (f : SelectedFile) (data : ImageData) (format : String) :
    Except Unit (Option PlacedImage) :=
  match f.finalLoad with
  | none => .error ()
  | some (w, h) =>
      .ok (some ⟨data, format, calculateImageDimensions w h pageWidth pageHeight imageFit⟩)

/-- Per-image body of the `handleConvert` loop. `.error` models a rejected
promise (caught by the surrounding try/catch, aborting the run); `.ok none`
models the `continue` taken when the WebP canvas context is unavailable;
`.ok (some p)` models a successful `addImage` placement `p`. -/
def processImage (imageFit : ImageFit) (pageWidth pageHeight : ℚ)
    (f : SelectedFile) : Except Unit (Option PlacedImage) :=
  if f.readOk = false then .error ()
  else if f.ftype = "image/jpeg" then
    finishImage imageFit pageWidth pageHeight f (.base64 f) "JPEG"
  else if f.ftype = "image/webp" then
    if f.webpLoadOk = false then .error ()
    else if f.ctxOk = false then .ok none
    else finishImage imageFit pageWidth pageHeight f (.canvasPng f) "PNG"
  else finishImage imageFit pageWidth pageHeight f (.base64 f) "PNG"

/-- Does processing this image abort the run (rejected read or decode)? -/
def imageAborts (imageFit : ImageFit) (pageWidth pageHeight : ℚ)
    (f : SelectedFile) : Bool :=
  match processImage imageFit pageWidth pageHeight f with
  | .error _ => true
  | .ok _ => false

/-- Does processing this image place content on its page? -/
def imagePlaced (imageFit : ImageFit) (pageWidth pageHeight : ℚ)
    (f : SelectedFile) : Bool :=
  match processImage imageFit pageWidth pageHeight f with
  | .ok (some _) => true
  | _ => false

/-- The content the loop leaves on this image's page: a singleton placement,
or nothing when the image is skipped or the run aborts earlier. -/
def pageContent (imageFit : ImageFit) (pageWidth pageHeight : ℚ)
    (f : SelectedFile) : List PlacedImage :=
  match processImage imageFit pageWidth pageHeight f with
  | .ok (some p) => [p]
  | _ => []

/-- The jsPDF document: the pages closed by `addPage` so far, the current
page `addImage` writes to, and the number of `addPage` calls made. -/
structure PdfDoc where
  donePages : List (List PlacedImage)
  current : List PlacedImage
  addPageCalls : Nat
deriving DecidableEq, Repr

/-- `new jsPDF(...)`: one empty page, no `addPage` calls yet. -/
def PdfDoc.new : PdfDoc := ⟨[], [], 0⟩

/-- `pdf.addPage()`: close the current page and start an empty one. -/
def PdfDoc.addPage (d : PdfDoc) : PdfDoc :=
  ⟨d.donePages ++ [d.current], [], d.addPageCalls + 1⟩

/-- `pdf.addImage(...)`: append a placement to the current page. -/
def PdfDoc.addImage (d : PdfDoc) (p : PlacedImage) : PdfDoc :=
  { d with current := d.current ++ [p] }

/-- All pages of the document, in order. -/
def PdfDoc.pages (d : PdfDoc) : List (List PlacedImage) :=
  d.donePages ++ [d.current]

/-- The `for` loop of `handleConvert`: `first` tracks `i = 0` (the
`if (i > 0) pdf.addPage()` guard). -/
def runLoop (imageFit : ImageFit) (pageWidth pageHeight : ℚ) :
    List SelectedFile → Bool → PdfDoc → Except Unit PdfDoc
  | [], _, pdf => .ok pdf
  | f :: rest, first, pdf =>
      let pdf1 := if first then pdf else pdf.addPage
      match processImage imageFit pageWidth pageHeight f with
      | .error e => .error e
      | .ok none => runLoop imageFit pageWidth pageHeight rest false pdf1
      | .ok (some p) => runLoop imageFit pageWidth pageHeight rest false (pdf1.addImage p)

/-- The whole conversion loop over the filtered files, starting from the
freshly created document. -/
def runPipeline (imageFit : ImageFit) (pageWidth pageHeight : ℚ)
    (imgs : List SelectedFile) : Except Unit PdfDoc :=
  runLoop imageFit pageWidth pageHeight imgs true PdfDoc.new

/-- The `pageSize` field of `ConversionOptions`. -/
inductive PageSize
  | a4
  | letter
  | a3
  | a5
deriving DecidableEq, Repr

/-- The `orientation` field of `ConversionOptions`. -/
inductive PageOrientation
  | portrait
  | landscape
deriving DecidableEq, Repr

/-- The `ConversionOptions` record of the source. -/
structure ConversionOptions where
  pageSize : PageSize
  orientation : PageOrientation
  imageFit : ImageFit
deriving DecidableEq, Repr

/-- The `AppStatus` enum of the source. -/
inductive AppStatus
  | IDLE
  | FILES_SELECTED
  | CONVERTING
  | SUCCESS
deriving DecidableEq, Repr

/-- The component state: status, selected files, options, and the stored
object-URL handle of the produced PDF blob (handles are numbered). -/
structure Session where
  status : AppStatus
  files : List SelectedFile
  options : ConversionOptions
  pdfBlobUrl : Option Nat
deriving DecidableEq, Repr

/-- The initial `useState` values of the component. -/
def defaultOptions : ConversionOptions := ⟨.a4, .portrait, .fit⟩

/-- Observable side effects of the handlers: the three `alert` messages,
`URL.createObjectURL`, and `URL.revokeObjectURL`. -/
inductive Effect
  | alertSelectEmpty
  | alertLibNotLoaded
  | alertConvertError
  | createObjectURL (h : Nat)
  | revokeObjectURL (h : Nat)
deriving DecidableEq, Repr

/-- `handleFilesAdded`: append the new files and move to FILES_SELECTED. -/
def handleFilesAdded (newFiles : List SelectedFile) (s : Session) : Session :=
  { s with files := s.files ++ newFiles, status := .FILES_SELECTED }

/-- `handleRemoveFile`: drop the file at the index; back to IDLE when the
list becomes empty. -/
def handleRemoveFile (indexToRemove : Nat) (s : Session) : Session :=
  let updatedFiles := s.files.eraseIdx indexToRemove
  if updatedFiles.isEmpty then
    { s with files := updatedFiles, status := .IDLE }
  else
    { s with files := updatedFiles }

/-- A `Partial<ConversionOptions>` argument of `handleOptionChange`. -/
structure OptionsPatch where
  pageSize : Option PageSize
  orientation : Option PageOrientation
  imageFit : Option ImageFit
deriving DecidableEq, Repr

/-- `handleOptionChange`: merge the patch over the current options. -/
def handleOptionChange (patch : OptionsPatch) (s : Session) : Session :=
  { s with
    options :=
      ⟨patch.pageSize.getD s.options.pageSize,
       patch.orientation.getD s.options.orientation,
       patch.imageFit.getD s.options.imageFit⟩ }

/-- `handleReset`: clear files and handle, revoke a held object URL, IDLE. -/
def handleReset (s : Session) : Session × List Effect :=
  ({ s with files := [], pdfBlobUrl := none, status := .IDLE },
   match s.pdfBlobUrl with
   | some h => [.revokeObjectURL h]
   | none => [])

/-- End-to-end `handleConvert`: the two guard clauses (empty filtered
selection, jsPDF not loaded) return before the pipeline starts; otherwise the
loop runs and the session ends in SUCCESS with a fresh blob-URL handle
stored, or — when any promise rejects — in FILES_SELECTED via the catch
block.  `freshHandle` is the handle `URL.createObjectURL` would mint. -/
def handleConvert (jspdfLoaded : Bool) (freshHandle : Nat)
    (pageWidth pageHeight : ℚ) (s : Session) : Session × List Effect :=
  if (filteredFiles s.files).isEmpty then (s, [.alertSelectEmpty])
  else if jspdfLoaded = false then (s, [.alertLibNotLoaded])
  else
    match runPipeline s.options.imageFit pageWidth pageHeight (filteredFiles s.files) with
    | .ok _ =>
        ({ s with pdfBlobUrl := some freshHandle, status := .SUCCESS },
         [.createObjectURL freshHandle])
    | .error _ =>
        ({ s with status := .FILES_SELECTED }, [.alertConvertError])

/-- The session together with the object-URL resource book-keeping:
`nextHandle` numbers the URLs `createObjectURL` mints, `live` lists the
created-but-not-revoked handles. -/
structure World where
  session : Session
  nextHandle : Nat
  live : List Nat
deriving DecidableEq, Repr

/-- Apply one observable effect to the resource book-keeping. -/
def World.applyEffect (w : World) (e : Effect) : World :=
  match e with
  | .createObjectURL h => { w with live := w.live ++ [h] }
  | .revokeObjectURL h => { w with live := w.live.erase h }
  | _ => w

/-- User events the rendered component can emit. -/
inductive Event
  | filesAdded (fs : List SelectedFile)
  | removeFile (i : Nat)
  | optionChange (patch : OptionsPatch)
  | convert (jspdfLoaded : Bool) (pageWidth pageHeight : ℚ)
  | reset
  | download

/-- Which events the UI offers in each status, read off `renderContent`:
IDLE renders the uploader; FILES_SELECTED renders the file list, the options
form and the convert button; CONVERTING renders only the spinner; SUCCESS
renders the download and reset buttons. -/
def eventAvailable (st : AppStatus) : Event → Bool
  | .filesAdded _ => st = .IDLE
  | .removeFile _ => st = .FILES_SELECTED
  | .optionChange _ => st = .FILES_SELECTED
  | .convert _ _ _ => st = .FILES_SELECTED
  | .reset => st = .SUCCESS
  | .download => st = .SUCCESS

/-- One user event: run the handler, then apply its effects. -/
def stepEvent (w : World) (e : Event) : World :=
  match e with
  | .filesAdded fs => { w with session := handleFilesAdded fs w.session }
  | .removeFile i => { w with session := handleRemoveFile i w.session }
  | .optionChange p => { w with session := handleOptionChange p w.session }
  | .convert j pw ph =>
      let r := handleConvert j w.nextHandle pw ph w.session
      r.2.foldl World.applyEffect
        { w with session := r.1, nextHandle := w.nextHandle + 1 }
  | .reset =>
      let r := handleReset w.session
      r.2.foldl World.applyEffect { w with session := r.1 }
  | .download => w

/-- The component's initial state. -/
def initialWorld : World :=
  ⟨⟨.IDLE, [], defaultOptions, none⟩, 0, []⟩

/-- Worlds reachable from the initial state through events the UI offers. -/
inductive Reachable : World → Prop
  | init : Reachable initialWorld
  | step (w : World) (e : Event) : Reachable w →
      eventAvailable w.session.status e = true → Reachable (stepEvent w e)

/-- Resource invariant: at most one live handle; a live handle is exactly the
stored one; outside SUCCESS no handle is stored. -/
def HandleInv (w : World) : Prop :=
  w.live.length ≤ 1 ∧
  (w.session.pdfBlobUrl = none → w.live = []) ∧
  (∀ h, w.session.pdfBlobUrl = some h → w.live = [h]) ∧
  (w.session.status ≠ .SUCCESS → w.session.pdfBlobUrl = none)

/-- A PNG file whose reads and decodes all succeed (800×600 pixels). -/
def samplePng : SelectedFile :=
  ⟨"image/png", true, true, true, some (800, 600)⟩

/-- A JPEG file whose reads and decodes all succeed (640×480 pixels). -/
def sampleJpeg : SelectedFile :=
  ⟨"image/jpeg", true, true, true, some (640, 480)⟩

/-- A PNG file whose `fileToBase64` read fails. -/
def sampleReadFail : SelectedFile :=
  ⟨"image/png", false, true, true, some (800, 600)⟩

/-- A WebP file for which no canvas drawing context can be obtained. -/
def sampleWebpNoCtx : SelectedFile :=
  ⟨"image/webp", true, true, false, some (320, 200)⟩

/-- A session with one unreadable file selected. -/
def readFailSession : Session :=
  ⟨.FILES_SELECTED, [sampleReadFail], defaultOptions, none⟩

/-- A session whose sole selected file is the context-less WebP. -/
def webpOnlySession : Session :=
  ⟨.FILES_SELECTED, [sampleWebpNoCtx], defaultOptions, none⟩

/-- A session with nothing selected. -/
def emptySession : Session :=
  ⟨.IDLE, [], defaultOptions, none⟩

/-- A world whose session already holds blob-URL handle 0 (still live) while
a convertible PNG is selected. -/
def heldHandleWorld : World :=
  ⟨⟨.FILES_SELECTED, [samplePng], defaultOptions, some 0⟩, 1, [0]⟩

/-! ## Theorems -/

/-- Closed form of the `fit` branch. -/
theorem calcFit_eq (iw ih pw ph : ℚ) :
    calculateImageDimensions iw ih pw ph .fit =
      ⟨iw * min ((pw - 20) / iw) ((ph - 20) / ih),
       ih * min ((pw - 20) / iw) ((ph - 20) / ih),
       (pw - iw * min ((pw - 20) / iw) ((ph - 20) / ih)) / 2,
       (ph - ih * min ((pw - 20) / iw) ((ph - 20) / ih)) / 2⟩ := by
  simp only [calculateImageDimensions, margin]
  norm_num

/-- Closed form of the `original` branch. -/
theorem calcOriginal_eq (iw ih pw ph : ℚ) :
    calculateImageDimensions iw ih pw ph .original =
      ⟨min (iw * pixelToMm) (pw - 20),
       min (ih * pixelToMm) (ph - 20),
       (pw - min (iw * pixelToMm) (pw - 20)) / 2,
       (ph - min (ih * pixelToMm) (ph - 20)) / 2⟩ := by
  simp only [calculateImageDimensions, margin]
  norm_num

/-- Closed form of the `fill` branch. -/
theorem calcFill_eq (iw ih pw ph : ℚ) :
    calculateImageDimensions iw ih pw ph .fill = ⟨pw - 20, ph - 20, 10, 10⟩ := by
  simp only [calculateImageDimensions, margin]
  norm_num

/-- C2: in `fill` mode the calculator returns exactly
(x = 10, y = 10, width = pageWidth - 20, height = pageHeight - 20),
for every input; in particular the image dimensions play no role. -/
theorem fill_mode_exact (iw ih pw ph : ℚ) :
    calculateImageDimensions iw ih pw ph .fill = ⟨pw - 20, ph - 20, 10, 10⟩ :=
  calcFill_eq iw ih pw ph

/-- C1 (amended): with both available dimensions positive (pageWidth > 20 and
pageHeight > 20), `fit` mode scales uniformly by
min((pageWidth-20)/imageWidth, (pageHeight-20)/imageHeight), preserves the
image's aspect ratio, and centers the rectangle on the full page. -/
theorem fit_aspect_centered_scale (iw ih pw ph : ℚ)
    (hiw : 0 < iw) (hih : 0 < ih) (hpw : 20 < pw) (hph : 20 < ph) :
    (calculateImageDimensions iw ih pw ph .fit).width
        = iw * min ((pw - 20) / iw) ((ph - 20) / ih) ∧
    (calculateImageDimensions iw ih pw ph .fit).height
        = ih * min ((pw - 20) / iw) ((ph - 20) / ih) ∧
    (calculateImageDimensions iw ih pw ph .fit).width
        / (calculateImageDimensions iw ih pw ph .fit).height = iw / ih ∧
    (calculateImageDimensions iw ih pw ph .fit).x
        = (pw - (calculateImageDimensions iw ih pw ph .fit).width) / 2 ∧
    (calculateImageDimensions iw ih pw ph .fit).y
        = (ph - (calculateImageDimensions iw ih pw ph .fit).height) / 2 := by
  have hs : 0 < min ((pw - 20) / iw) ((ph - 20) / ih) :=
    lt_min (div_pos (by linarith) hiw) (div_pos (by linarith) hih)
  rw [calcFit_eq]
  refine ⟨rfl, rfl, ?_, rfl, rfl⟩
  rw [mul_comm iw _, mul_comm ih _, mul_div_mul_left _ _ (ne_of_gt hs)]

/-- Witness for C1 at the spec scenario 800×600 image on a 210×297 page. -/
theorem fit_aspect_centered_scale_witness :
    ((0:ℚ) < 800 ∧ (0:ℚ) < 600 ∧ (20:ℚ) < 210 ∧ (20:ℚ) < 297) ∧
    ((calculateImageDimensions 800 600 210 297 .fit).width
        = 800 * min ((210 - 20) / 800) ((297 - 20) / 600) ∧
     (calculateImageDimensions 800 600 210 297 .fit).height
        = 600 * min ((210 - 20) / 800) ((297 - 20) / 600) ∧
     (calculateImageDimensions 800 600 210 297 .fit).width
        / (calculateImageDimensions 800 600 210 297 .fit).height = 800 / 600 ∧
     (calculateImageDimensions 800 600 210 297 .fit).x
        = (210 - (calculateImageDimensions 800 600 210 297 .fit).width) / 2 ∧
     (calculateImageDimensions 800 600 210 297 .fit).y
        = (297 - (calculateImageDimensions 800 600 210 297 .fit).height) / 2) :=
  ⟨by norm_num,
   fit_aspect_centered_scale 800 600 210 297
     (by norm_num) (by norm_num) (by norm_num) (by norm_num)⟩

/-- Counterexample to C1 as stated: at imageWidth = imageHeight = 1,
pageWidth = 20 (positive), pageHeight = 30, the scale is 0, the returned
rectangle is 0×0, and its aspect ratio does not equal the image's. -/
theorem fit_aspect_fails_at_page_twenty :
    (0:ℚ) < 1 ∧ (0:ℚ) < 20 ∧ (0:ℚ) < 30 ∧
    ¬ ((calculateImageDimensions 1 1 20 30 .fit).width
        / (calculateImageDimensions 1 1 20 30 .fit).height = (1:ℚ) / 1) := by
  rw [calcFit_eq]
  norm_num

/-- C3: in `original` mode each dimension is clamped independently,
width = min(imageWidth * 0.352778, pageWidth - 20) and
height = min(imageHeight * 0.352778, pageHeight - 20), and the rectangle is
centered on the full page. -/
theorem original_clamped_centered (iw ih pw ph : ℚ)
    (hiw : 0 < iw) (hih : 0 < ih) (hpw : 0 < pw) (hph : 0 < ph) :
    (calculateImageDimensions iw ih pw ph .original).width
        = min (iw * (0.352778 : ℚ)) (pw - 20) ∧
    (calculateImageDimensions iw ih pw ph .original).height
        = min (ih * (0.352778 : ℚ)) (ph - 20) ∧
    (calculateImageDimensions iw ih pw ph .original).x
        = (pw - (calculateImageDimensions iw ih pw ph .original).width) / 2 ∧
    (calculateImageDimensions iw ih pw ph .original).y
        = (ph - (calculateImageDimensions iw ih pw ph .original).height) / 2 := by
  rw [calcOriginal_eq]
  exact ⟨rfl, rfl, rfl, rfl⟩

/-- Witness for C3 at an 800×600 image on a 210×297 page. -/
theorem original_clamped_centered_witness :
    ((0:ℚ) < 800 ∧ (0:ℚ) < 600 ∧ (0:ℚ) < 210 ∧ (0:ℚ) < 297) ∧
    ((calculateImageDimensions 800 600 210 297 .original).width
        = min (800 * (0.352778 : ℚ)) (210 - 20) ∧
     (calculateImageDimensions 800 600 210 297 .original).height
        = min (600 * (0.352778 : ℚ)) (297 - 20) ∧
     (calculateImageDimensions 800 600 210 297 .original).x
        = (210 - (calculateImageDimensions 800 600 210 297 .original).width) / 2 ∧
     (calculateImageDimensions 800 600 210 297 .original).y
        = (297 - (calculateImageDimensions 800 600 210 297 .original).height) / 2) :=
  ⟨by norm_num,
   original_clamped_centered 800 600 210 297
     (by norm_num) (by norm_num) (by norm_num) (by norm_num)⟩

/-- The `fit` width never exceeds the available width. -/
theorem fit_width_le (iw ih pw ph : ℚ) (hiw : 0 < iw) :
    iw * min ((pw - 20) / iw) ((ph - 20) / ih) ≤ pw - 20 := by
  have h1 : iw * min ((pw - 20) / iw) ((ph - 20) / ih) ≤ iw * ((pw - 20) / iw) :=
    mul_le_mul_of_nonneg_left (min_le_left _ _) hiw.le
  have h2 : iw * ((pw - 20) / iw) = pw - 20 := by
    rw [mul_comm, div_mul_cancel₀ _ (ne_of_gt hiw)]
  linarith

/-- The `fit` height never exceeds the available height. -/
theorem fit_height_le (iw ih pw ph : ℚ) (hih : 0 < ih) :
    ih * min ((pw - 20) / iw) ((ph - 20) / ih) ≤ ph - 20 := by
  have h1 : ih * min ((pw - 20) / iw) ((ph - 20) / ih) ≤ ih * ((ph - 20) / ih) :=
    mul_le_mul_of_nonneg_left (min_le_right _ _) hih.le
  have h2 : ih * ((ph - 20) / ih) = ph - 20 := by
    rw [mul_comm, div_mul_cancel₀ _ (ne_of_gt hih)]
  linarith

/-- C4: for positive image dimensions and pageWidth, pageHeight > 20, the
rectangles of `fit` and `original` stay inside the page
(x + width ≤ pageWidth, y + height ≤ pageHeight), and `fill` exactly fills
the margin-bounded area. -/
theorem placement_within_page (iw ih pw ph : ℚ)
    (hiw : 0 < iw) (hih : 0 < ih) (hpw : 20 < pw) (hph : 20 < ph) :
    ((calculateImageDimensions iw ih pw ph .fit).x
        + (calculateImageDimensions iw ih pw ph .fit).width ≤ pw ∧
     (calculateImageDimensions iw ih pw ph .fit).y
        + (calculateImageDimensions iw ih pw ph .fit).height ≤ ph) ∧
    ((calculateImageDimensions iw ih pw ph .original).x
        + (calculateImageDimensions iw ih pw ph .original).width ≤ pw ∧
     (calculateImageDimensions iw ih pw ph .original).y
        + (calculateImageDimensions iw ih pw ph .original).height ≤ ph) ∧
    calculateImageDimensions iw ih pw ph .fill = ⟨pw - 20, ph - 20, 10, 10⟩ := by
  refine ⟨?_, ?_, calcFill_eq iw ih pw ph⟩
  · rw [calcFit_eq]
    have hw := fit_width_le iw ih pw ph hiw
    have hh := fit_height_le iw ih pw ph hih
    constructor <;> simp only [] <;> linarith
  · rw [calcOriginal_eq]
    have hw : min (iw * pixelToMm) (pw - 20) ≤ pw - 20 := min_le_right _ _
    have hh : min (ih * pixelToMm) (ph - 20) ≤ ph - 20 := min_le_right _ _
    constructor <;> simp only [] <;> linarith

/-- Witness for C4 at an 800×600 image on a 210×297 page. -/
theorem placement_within_page_witness :
    ((0:ℚ) < 800 ∧ (0:ℚ) < 600 ∧ (20:ℚ) < 210 ∧ (20:ℚ) < 297) ∧
    (((calculateImageDimensions 800 600 210 297 .fit).x
        + (calculateImageDimensions 800 600 210 297 .fit).width ≤ 210 ∧
      (calculateImageDimensions 800 600 210 297 .fit).y
        + (calculateImageDimensions 800 600 210 297 .fit).height ≤ 297) ∧
     ((calculateImageDimensions 800 600 210 297 .original).x
        + (calculateImageDimensions 800 600 210 297 .original).width ≤ 210 ∧
      (calculateImageDimensions 800 600 210 297 .original).y
        + (calculateImageDimensions 800 600 210 297 .original).height ≤ 297) ∧
     calculateImageDimensions 800 600 210 297 .fill = ⟨210 - 20, 297 - 20, 10, 10⟩) :=
  ⟨by norm_num,
   placement_within_page 800 600 210 297
     (by norm_num) (by norm_num) (by norm_num) (by norm_num)⟩

/-- C10: for positive image dimensions and pageWidth, pageHeight > 20, the
fit-mode rectangle exactly reaches the available area on at least one axis:
width = pageWidth - 20 or height = pageHeight - 20 (so there is no
no-upscale guard: small images are enlarged until one axis fills). -/
theorem fit_touches_available_area (iw ih pw ph : ℚ)
    (hiw : 0 < iw) (hih : 0 < ih) (hpw : 20 < pw) (hph : 20 < ph) :
    (calculateImageDimensions iw ih pw ph .fit).width = pw - 20 ∨
    (calculateImageDimensions iw ih pw ph .fit).height = ph - 20 := by
  rw [calcFit_eq]
  rcases le_total ((pw - 20) / iw) ((ph - 20) / ih) with h | h
  · left
    simp only [min_eq_left h]
    rw [mul_comm, div_mul_cancel₀ _ (ne_of_gt hiw)]
  · right
    simp only [min_eq_right h]
    rw [mul_comm, div_mul_cancel₀ _ (ne_of_gt hih)]

/-- Witness for C10 at a 100×100 image (smaller than the page in mm terms)
on a 210×297 page: the image is upscaled until the width axis fills. -/
theorem fit_touches_available_area_witness :
    ((0:ℚ) < 100 ∧ (0:ℚ) < 100 ∧ (20:ℚ) < 210 ∧ (20:ℚ) < 297) ∧
    ((calculateImageDimensions 100 100 210 297 .fit).width = 210 - 20 ∨
     (calculateImageDimensions 100 100 210 297 .fit).height = 297 - 20) :=
  ⟨by norm_num,
   fit_touches_available_area 100 100 210 297
     (by norm_num) (by norm_num) (by norm_num) (by norm_num)⟩

/-- Appending a page appends an empty page to the page list. -/
theorem PdfDoc.pages_addPage (d : PdfDoc) : d.addPage.pages = d.pages ++ [[]] := by
  simp [PdfDoc.pages, PdfDoc.addPage]

/-- Appending a page and then an image appends a one-image page. -/
theorem PdfDoc.pages_addPage_addImage (d : PdfDoc) (p : PlacedImage) :
    ((d.addPage).addImage p).pages = d.pages ++ [[p]] := by
  simp [PdfDoc.pages, PdfDoc.addPage, PdfDoc.addImage]

/-- A read failure makes the per-image processing abort. -/
theorem processImage_error_of_read_failure (imageFit : ImageFit) (pw ph : ℚ)
    (f : SelectedFile) (h : f.readOk = false) :
    processImage imageFit pw ph f = .error () := by
  unfold processImage
  rw [h]
  simp

/-- An image that places content does not abort the run. -/
theorem imagePlaced_not_aborts (imageFit : ImageFit) (pw ph : ℚ) (f : SelectedFile)
    (h : imagePlaced imageFit pw ph f = true) :
    imageAborts imageFit pw ph f = false := by
  unfold imagePlaced at h
  unfold imageAborts
  cases hp : processImage imageFit pw ph f with
  | error e => rw [hp] at h; simp at h
  | ok o => simp

/-- An image that places content contributes exactly its placement. -/
theorem pageContent_of_placed (imageFit : ImageFit) (pw ph : ℚ) (f : SelectedFile)
    (h : imagePlaced imageFit pw ph f = true) :
    ∃ p, processImage imageFit pw ph f = .ok (some p) ∧
      pageContent imageFit pw ph f = [p] := by
  unfold imagePlaced at h
  cases hp : processImage imageFit pw ph f with
  | error e => rw [hp] at h; simp at h
  | ok o =>
    cases o with
    | none => rw [hp] at h; simp at h
    | some p => exact ⟨p, rfl, by simp [pageContent, hp]⟩

/-- Non-first stretch of the loop: if no remaining image aborts, the loop
succeeds, appending one page per image holding that image's content. -/
theorem runLoop_false_ok (imageFit : ImageFit) (pw ph : ℚ) (imgs : List SelectedFile)
    (h : ∀ f ∈ imgs, imageAborts imageFit pw ph f = false) (pdf : PdfDoc) :
    ∃ d, runLoop imageFit pw ph imgs false pdf = .ok d ∧
      d.pages = pdf.pages ++ imgs.map (pageContent imageFit pw ph) ∧
      d.addPageCalls = pdf.addPageCalls + imgs.length := by
  induction imgs generalizing pdf with
  | nil => exact ⟨pdf, rfl, by simp, by simp⟩
  | cons f rest ih =>
    have hf : imageAborts imageFit pw ph f = false := h f (List.mem_cons_self f rest)
    have hrest : ∀ g ∈ rest, imageAborts imageFit pw ph g = false :=
      fun g hg => h g (List.mem_cons_of_mem f hg)
    cases hp : processImage imageFit pw ph f with
    | error e => simp [imageAborts, hp] at hf
    | ok o =>
      cases o with
      | none =>
        obtain ⟨d, hd, hpages, hcalls⟩ := ih hrest pdf.addPage
        refine ⟨d, ?_, ?_, ?_⟩
        · simp only [runLoop, hp, Bool.false_eq_true, if_false]
          exact hd
        · rw [hpages, PdfDoc.pages_addPage, List.append_assoc]
          simp [pageContent, hp]
        · simp only [PdfDoc.addPage] at hcalls
          rw [hcalls]
          simp
          omega
      | some p =>
        obtain ⟨d, hd, hpages, hcalls⟩ := ih hrest (pdf.addPage.addImage p)
        refine ⟨d, ?_, ?_, ?_⟩
        · simp only [runLoop, hp, Bool.false_eq_true, if_false]
          exact hd
        · rw [hpages, PdfDoc.pages_addPage_addImage, List.append_assoc]
          simp [pageContent, hp]
        · simp only [PdfDoc.addImage, PdfDoc.addPage] at hcalls
          rw [hcalls]
          simp
          omega

/-- Whole pipeline on a non-empty list of non-aborting images: success, one
page per image, each holding that image's content, and one `addPage` call per
image after the first. -/
theorem runPipeline_ok (imageFit : ImageFit) (pw ph : ℚ) (imgs : List SelectedFile)
    (hne : imgs ≠ [])
    (h : ∀ f ∈ imgs, imageAborts imageFit pw ph f = false) :
    ∃ d, runPipeline imageFit pw ph imgs = .ok d ∧
      d.pages = imgs.map (pageContent imageFit pw ph) ∧
      d.addPageCalls = imgs.length - 1 := by
  cases imgs with
  | nil => exact absurd rfl hne
  | cons f rest =>
    have hf : imageAborts imageFit pw ph f = false := h f (List.mem_cons_self f rest)
    have hrest : ∀ g ∈ rest, imageAborts imageFit pw ph g = false :=
      fun g hg => h g (List.mem_cons_of_mem f hg)
    rw [runPipeline]
    cases hp : processImage imageFit pw ph f with
    | error e => simp [imageAborts, hp] at hf
    | ok o =>
      cases o with
      | none =>
        obtain ⟨d, hd, hpages, hcalls⟩ := runLoop_false_ok imageFit pw ph rest hrest PdfDoc.new
        refine ⟨d, ?_, ?_, ?_⟩
        · simp only [runLoop, hp, if_true]
          exact hd
        · rw [hpages]
          simp [pageContent, hp, PdfDoc.pages, PdfDoc.new]
        · simp only [PdfDoc.new] at hcalls
          rw [hcalls]
          simp
      | some p =>
        obtain ⟨d, hd, hpages, hcalls⟩ :=
          runLoop_false_ok imageFit pw ph rest hrest (PdfDoc.new.addImage p)
        refine ⟨d, ?_, ?_, ?_⟩
        · simp only [runLoop, hp, if_true]
          exact hd
        · rw [hpages]
          simp [pageContent, hp, PdfDoc.pages, PdfDoc.new, PdfDoc.addImage]
        · simp only [PdfDoc.new, PdfDoc.addImage] at hcalls
          rw [hcalls]
          simp

/-- If some image in the list aborts, the whole loop aborts. -/
theorem runLoop_error (imageFit : ImageFit) (pw ph : ℚ) (f : SelectedFile)
    (hf : imageAborts imageFit pw ph f = true) :
    ∀ imgs : List SelectedFile, f ∈ imgs → ∀ (first : Bool) (pdf : PdfDoc),
      runLoop imageFit pw ph imgs first pdf = .error () := by
  intro imgs
  induction imgs with
  | nil => intro hmem; cases hmem
  | cons g rest ih =>
    intro hmem first pdf
    rcases List.mem_cons.mp hmem with heq | hmem'
    · subst heq
      cases hp : processImage imageFit pw ph f with
      | error e => simp [runLoop, hp]
      | ok o => simp [imageAborts, hp] at hf
    · cases hp : processImage imageFit pw ph g with
      | error e => simp [runLoop, hp]
      | ok o =>
        cases o with
        | none =>
          simp only [runLoop, hp]
          exact ih hmem' false _
        | some p =>
          simp only [runLoop, hp]
          exact ih hmem' false _

/-- C5: a run over a non-empty filtered list in which every image is read,
decoded and placed succeeds and yields exactly one page per image, pages in
input order each holding that image's placement, with one `addPage` call per
image after the first and none for a single-image run. -/
theorem pipeline_page_count_and_order (imageFit : ImageFit) (pw ph : ℚ)
    (imgs : List SelectedFile) (hne : imgs ≠ [])
    (hok : ∀ f ∈ imgs, imagePlaced imageFit pw ph f = true) :
    ∃ d, runPipeline imageFit pw ph imgs = .ok d ∧
      d.pages.length = imgs.length ∧
      d.pages = imgs.map (pageContent imageFit pw ph) ∧
      d.addPageCalls = imgs.length - 1 ∧
      (imgs.length = 1 → d.addPageCalls = 0) := by
  obtain ⟨d, hd, hpages, hcalls⟩ :=
    runPipeline_ok imageFit pw ph imgs hne
      (fun f hf => imagePlaced_not_aborts imageFit pw ph f (hok f hf))
  refine ⟨d, hd, ?_, hpages, hcalls, ?_⟩
  · rw [hpages]
    simp
  · intro h1
    rw [hcalls, h1]

/-- Witness for C5: a PNG followed by a JPEG on an a4-sized page. -/
theorem pipeline_page_count_and_order_witness :
    ([samplePng, sampleJpeg] ≠ [] ∧
     (∀ f ∈ [samplePng, sampleJpeg], imagePlaced .fit 210 297 f = true)) ∧
    (∃ d, runPipeline .fit 210 297 [samplePng, sampleJpeg] = .ok d ∧
      d.pages.length = [samplePng, sampleJpeg].length ∧
      d.pages = [samplePng, sampleJpeg].map (pageContent .fit 210 297) ∧
      d.addPageCalls = [samplePng, sampleJpeg].length - 1 ∧
      ([samplePng, sampleJpeg].length = 1 → d.addPageCalls = 0)) :=
  ⟨⟨by decide, by decide⟩,
   pipeline_page_count_and_order .fit 210 297 [samplePng, sampleJpeg]
     (by decide) (by decide)⟩

/-- C6: if reading or decoding any filtered image fails, the whole run
aborts: the session ends in FILES_SELECTED with its file list, options and
stored handle untouched, and the only effect is the error alert (in
particular no object URL is created). -/
theorem decode_failure_aborts_run (freshHandle : Nat) (pw ph : ℚ)
    (s : Session) (f : SelectedFile)
    (hmem : f ∈ filteredFiles s.files)
    (hfail : f.readOk = false ∨
      processImage s.options.imageFit pw ph f = .error ()) :
    (handleConvert true freshHandle pw ph s).1.status = .FILES_SELECTED ∧
    (handleConvert true freshHandle pw ph s).1.files = s.files ∧
    (handleConvert true freshHandle pw ph s).1.options = s.options ∧
    (handleConvert true freshHandle pw ph s).1.pdfBlobUrl = s.pdfBlobUrl ∧
    (handleConvert true freshHandle pw ph s).2 = [.alertConvertError] := by
  have herr : processImage s.options.imageFit pw ph f = .error () := by
    rcases hfail with h | h
    · exact processImage_error_of_read_failure _ _ _ _ h
    · exact h
  have haborts : imageAborts s.options.imageFit pw ph f = true := by
    simp [imageAborts, herr]
  have hpipe :
      runPipeline s.options.imageFit pw ph (filteredFiles s.files) = .error () := by
    rw [runPipeline]
    exact runLoop_error _ _ _ _ haborts _ hmem true PdfDoc.new
  have hnonempty : (filteredFiles s.files).isEmpty = false := by
    cases hh : filteredFiles s.files with
    | nil => rw [hh] at hmem; cases hmem
    | cons a l => simp [hh]
  simp [handleConvert, hnonempty, hpipe]

/-- Witness for C6: a session whose only file has a failing read. -/
theorem decode_failure_aborts_run_witness :
    (sampleReadFail ∈ filteredFiles readFailSession.files ∧
     (sampleReadFail.readOk = false ∨
      processImage readFailSession.options.imageFit 210 297 sampleReadFail
        = .error ())) ∧
    ((handleConvert true 0 210 297 readFailSession).1.status = .FILES_SELECTED ∧
     (handleConvert true 0 210 297 readFailSession).1.files = readFailSession.files ∧
     (handleConvert true 0 210 297 readFailSession).1.options = readFailSession.options ∧
     (handleConvert true 0 210 297 readFailSession).1.pdfBlobUrl
        = readFailSession.pdfBlobUrl ∧
     (handleConvert true 0 210 297 readFailSession).2 = [.alertConvertError]) :=
  ⟨⟨by decide, Or.inl (by decide)⟩,
   decode_failure_aborts_run 0 210 297 readFailSession sampleReadFail
     (by decide) (Or.inl (by decide))⟩

/-- C7: a WebP image whose canvas context cannot be obtained is skipped
(its processing yields no placement and its page stays empty) while the run
continues over the remaining images and, when none of them aborts, still ends
in SUCCESS — even when that WebP is the sole input. -/
theorem webp_surface_failure_skips (freshHandle : Nat) (pw ph : ℚ)
    (s : Session) (f : SelectedFile)
    (hft : f.ftype = "image/webp") (hread : f.readOk = true)
    (hload : f.webpLoadOk = true) (hctx : f.ctxOk = false)
    (hmem : f ∈ filteredFiles s.files)
    (hnoabort : ∀ g ∈ filteredFiles s.files,
      imageAborts s.options.imageFit pw ph g = false) :
    processImage s.options.imageFit pw ph f = .ok none ∧
    pageContent s.options.imageFit pw ph f = [] ∧
    (∃ d, runPipeline s.options.imageFit pw ph (filteredFiles s.files) = .ok d ∧
      d.pages = (filteredFiles s.files).map (pageContent s.options.imageFit pw ph)) ∧
    (handleConvert true freshHandle pw ph s).1.status = .SUCCESS := by
  have hproc : processImage s.options.imageFit pw ph f = .ok none := by
    unfold processImage
    rw [hread, hft, hload, hctx]
    simp
  have hne : filteredFiles s.files ≠ [] := by
    intro hh
    rw [hh] at hmem
    cases hmem
  obtain ⟨d, hd, hpages, _⟩ :=
    runPipeline_ok s.options.imageFit pw ph (filteredFiles s.files) hne hnoabort
  have hnonempty : (filteredFiles s.files).isEmpty = false := by
    cases hh : filteredFiles s.files with
    | nil => exact absurd hh hne
    | cons a l => simp [hh]
  refine ⟨hproc, by simp [pageContent, hproc], ⟨d, hd, hpages⟩, ?_⟩
  simp [handleConvert, hnonempty, hd]

/-- Witness for C7: the context-less WebP as the sole input still reaches
SUCCESS. -/
theorem webp_surface_failure_skips_witness :
    (sampleWebpNoCtx.ftype = "image/webp" ∧
     sampleWebpNoCtx.readOk = true ∧
     sampleWebpNoCtx.webpLoadOk = true ∧
     sampleWebpNoCtx.ctxOk = false ∧
     sampleWebpNoCtx ∈ filteredFiles webpOnlySession.files ∧
     (∀ g ∈ filteredFiles webpOnlySession.files,
       imageAborts webpOnlySession.options.imageFit 210 297 g = false)) ∧
    (processImage webpOnlySession.options.imageFit 210 297 sampleWebpNoCtx
        = .ok none ∧
     pageContent webpOnlySession.options.imageFit 210 297 sampleWebpNoCtx = [] ∧
     (∃ d, runPipeline webpOnlySession.options.imageFit 210 297
          (filteredFiles webpOnlySession.files) = .ok d ∧
        d.pages = (filteredFiles webpOnlySession.files).map
          (pageContent webpOnlySession.options.imageFit 210 297)) ∧
     (handleConvert true 0 210 297 webpOnlySession).1.status = .SUCCESS) :=
  ⟨⟨by decide, by decide, by decide, by decide, by decide, by decide⟩,
   webp_surface_failure_skips 0 210 297 webpOnlySession sampleWebpNoCtx
     (by decide) (by decide) (by decide) (by decide) (by decide) (by decide)⟩

/-- C8: when the filtered selection is empty or jsPDF is not loaded,
`handleConvert` returns the session untouched and emits only the pertinent
alert; the pipeline never runs. -/
theorem convert_guard_leaves_session_unchanged (jspdfLoaded : Bool)
    (freshHandle : Nat) (pw ph : ℚ) (s : Session)
    (h : filteredFiles s.files = [] ∨ jspdfLoaded = false) :
    (handleConvert jspdfLoaded freshHandle pw ph s).1 = s ∧
    ((handleConvert jspdfLoaded freshHandle pw ph s).2 = [.alertSelectEmpty] ∨
     (handleConvert jspdfLoaded freshHandle pw ph s).2 = [.alertLibNotLoaded]) := by
  rcases h with h | h
  · have he : (filteredFiles s.files).isEmpty = true := by simp [h]
    simp [handleConvert, he]
  · by_cases he : (filteredFiles s.files).isEmpty = true
    · simp [handleConvert, he]
    · simp [handleConvert, he, h]

/-- Witness for C8: converting with nothing selected changes nothing. -/
theorem convert_guard_leaves_session_unchanged_witness :
    (filteredFiles emptySession.files = [] ∨ (true : Bool) = false) ∧
    ((handleConvert true 0 210 297 emptySession).1 = emptySession ∧
     ((handleConvert true 0 210 297 emptySession).2 = [.alertSelectEmpty] ∨
      (handleConvert true 0 210 297 emptySession).2 = [.alertLibNotLoaded])) :=
  ⟨Or.inl (by decide),
   convert_guard_leaves_session_unchanged true 0 210 297 emptySession
     (Or.inl (by decide))⟩

/-- The initial world satisfies the handle invariant. -/
theorem handleInv_initial : HandleInv initialWorld := by
  refine ⟨?_, ?_, ?_, ?_⟩
  · simp [initialWorld]
  · intro _
    rfl
  · intro h hh
    simp [initialWorld] at hh
  · intro _
    rfl

/-- Every UI-offered event preserves the handle invariant. -/
theorem handleInv_step (w : World) (e : Event)
    (hw : HandleInv w) (ha : eventAvailable w.session.status e = true) :
    HandleInv (stepEvent w e) := by
  obtain ⟨h1, h2, h3, h4⟩ := hw
  cases e with
  | filesAdded fs =>
    have hst : w.session.status = .IDLE := by
      simpa [eventAvailable] using ha
    have hurl : w.session.pdfBlobUrl = none := h4 (by rw [hst]; simp)
    have hlive : w.live = [] := h2 hurl
    refine ⟨?_, ?_, ?_, ?_⟩ <;>
      simp [stepEvent, handleFilesAdded, hurl, hlive]
  | removeFile i =>
    have hst : w.session.status = .FILES_SELECTED := by
      simpa [eventAvailable] using ha
    have hurl : w.session.pdfBlobUrl = none := h4 (by rw [hst]; simp)
    have hlive : w.live = [] := h2 hurl
    by_cases hemp : (w.session.files.eraseIdx i).isEmpty = true <;>
      refine ⟨?_, ?_, ?_, ?_⟩ <;>
        simp [stepEvent, handleRemoveFile, hemp, hurl, hlive]
  | optionChange p =>
    have hst : w.session.status = .FILES_SELECTED := by
      simpa [eventAvailable] using ha
    have hurl : w.session.pdfBlobUrl = none := h4 (by rw [hst]; simp)
    have hlive : w.live = [] := h2 hurl
    refine ⟨?_, ?_, ?_, ?_⟩ <;>
      simp [stepEvent, handleOptionChange, hurl, hlive, hst]
  | convert j pw ph =>
    have hst : w.session.status = .FILES_SELECTED := by
      simpa [eventAvailable] using ha
    have hurl : w.session.pdfBlobUrl = none := h4 (by rw [hst]; simp)
    have hlive : w.live = [] := h2 hurl
    by_cases hemp : (filteredFiles w.session.files).isEmpty = true
    · refine ⟨?_, ?_, ?_, ?_⟩ <;>
        simp [stepEvent, handleConvert, hemp, World.applyEffect, hurl, hlive]
    · cases hj : j with
      | false =>
        refine ⟨?_, ?_, ?_, ?_⟩ <;>
          simp [stepEvent, handleConvert, hemp, hj, World.applyEffect, hurl, hlive]
      | true =>
        cases hrun : runPipeline w.session.options.imageFit pw ph
            (filteredFiles w.session.files) with
        | error e =>
          refine ⟨?_, ?_, ?_, ?_⟩ <;>
            simp [stepEvent, handleConvert, hemp, hj, hrun,
              World.applyEffect, hurl, hlive]
        | ok d =>
          refine ⟨?_, ?_, ?_, ?_⟩ <;>
            simp [stepEvent, handleConvert, hemp, hj, hrun,
              World.applyEffect, hurl, hlive]
  | reset =>
    cases hurl : w.session.pdfBlobUrl with
    | none =>
      have hlive : w.live = [] := h2 hurl
      refine ⟨?_, ?_, ?_, ?_⟩ <;>
        simp [stepEvent, handleReset, hurl, World.applyEffect, hlive]
    | some h0 =>
      have hlive : w.live = [h0] := h3 h0 hurl
      refine ⟨?_, ?_, ?_, ?_⟩ <;>
        simp [stepEvent, handleReset, hurl, World.applyEffect, hlive]
  | download =>
    exact ⟨h1, h2, h3, h4⟩

/-- Every reachable world satisfies the handle invariant. -/
theorem handleInv_reachable (w : World) (hw : Reachable w) : HandleInv w := by
  induction hw with
  | init => exact handleInv_initial
  | step w e _ ha ih => exact handleInv_step w e ih ha

/-- C9 (amended): in every UI-reachable world at most one blob-URL handle is
live, and whenever a handle is stored an explicit reset revokes it, leaving
none stored and none live.  (`handleConvert` itself never revokes; the
invariant holds because the UI only offers convert while no handle is held.) -/
theorem artifact_handle_single_owner (w : World) (hw : Reachable w) :
    w.live.length ≤ 1 ∧
    (∀ h, w.session.pdfBlobUrl = some h →
      (stepEvent w .reset).session.pdfBlobUrl = none ∧
      (stepEvent w .reset).live = []) := by
  obtain ⟨h1, h2, h3, h4⟩ := handleInv_reachable w hw
  refine ⟨h1, ?_⟩
  intro h hh
  have hlive : w.live = [h] := h3 h hh
  constructor
  · simp [stepEvent, handleReset, hh, World.applyEffect]
  · simp [stepEvent, handleReset, hh, World.applyEffect, hlive]

/-- Witness for C9 at the (reachable) initial world. -/
theorem artifact_handle_single_owner_witness :
    initialWorld.live.length ≤ 1 ∧
    (∀ h, initialWorld.session.pdfBlobUrl = some h →
      (stepEvent initialWorld .reset).session.pdfBlobUrl = none ∧
      (stepEvent initialWorld .reset).live = []) :=
  artifact_handle_single_owner initialWorld Reachable.init

/-- Counterexample to C9 as stated: from a session value that already holds
live handle 0, a successful conversion stores new handle 1 while emitting no
revocation — afterwards handles 0 and 1 are both live, so the new run did not
release the prior handle. -/
theorem convert_does_not_release_prior_handle :
    heldHandleWorld.session.pdfBlobUrl = some 0 ∧
    heldHandleWorld.live = [0] ∧
    (stepEvent heldHandleWorld (.convert true 210 297)).session.pdfBlobUrl
      = some 1 ∧
    (stepEvent heldHandleWorld (.convert true 210 297)).live = [0, 1] := by
  refine ⟨rfl, rfl, ?_, ?_⟩ <;> decide
